import Mathlib

/-!
Shallow embedding of `src/routes/games.js`, an Express router over a
lowdb (lodash-chained) JSON collection named "games".

A JSON object is modelled as an association list of string fields; a
record of the collection is such an object.  The lodash/lowdb operations
the router uses are translated at their documented semantics:
`_.find(coll, pred)` returns the first matching element,
`Object.assign` / object spread copies every own field of the patch onto
the target (later keys override earlier ones), and `_.remove(arr, pred)`
removes every element the predicate matches.
-/

namespace Games

/-- A top-level field of a JSON object: key and (string) value. -/
abbrev Field := String × String

/-- A JSON object (a record of the collection): list of fields.
A parsed JSON body has no duplicate keys; `keysNodup` states that. -/
abbrev Record := List Field

/-- Raw payload of a thrown store exception (sent verbatim on 500). -/
abbrev StoreErr := String

/-- JS property read `r[k]`: value of the first field named `k`. -/
def lookupField : Record → String → Option String
  | [], _ => none
  | (k', v) :: rest, k => if k' = k then some v else lookupField rest k

/-- Whether the object has an own field named `k` (`k in r`). -/
def hasField : Record → String → Bool
  | [], _ => false
  | (k', _) :: rest, k => k' = k || hasField rest k

/-- JS property write `r[k] = v`: replace the field in place if present,
otherwise append it at the end (JS key-insertion order). -/
def setField : Record → String → String → Record
  | [], k, v => [(k, v)]
  | (k', v') :: rest, k, v =>
      if k' = k then (k, v) :: rest else (k', v') :: setField rest k v

/-- Keys of a parsed JSON object are distinct. -/
abbrev keysNodup (r : Record) : Prop := (r.map Prod.fst).Nodup

/-- Object spread / `Object.assign`: copy each own field of `patch` onto
`base`, in order.  This is the shallow merge of both `post` (line 121,
the literal with spread) and `put` (line 171, lodash `.assign`). -/
def spreadMerge (base patch : Record) : Record :=
  patch.foldl (fun acc f => setField acc f.1 f.2) base

/-- The lodash shorthand predicate passed to `.find` and `.remove` on
lines 87, 170, 174 and 202: the record's `id` property equals `i`
(a record without an `id` field matches no string). -/
def matchesId (r : Record) (i : String) : Bool :=
  lookupField r "id" = some i

/-- Chain `db.get("games").find(setObject)` (lines 87, 170, 174): first
record of the collection whose `id` equals `i`, if any. -/
def findById : List Record → String → Option Record
  | [], _ => none
  | r :: rest, i => if matchesId r i then some r else findById rest i

/-- Chain `.find(setObject).assign(patch).write()` (lines 168-172): the
first matching record is mutated in place by `Object.assign`; every
other record, and the order, are untouched.  When nothing matches,
`assign` acts on a fresh detached object and the write persists the
collection unchanged. -/
def updateFirst : List Record → String → Record → List Record
  | [], _, _ => []
  | r :: rest, i, patch =>
      if matchesId r i then spreadMerge r patch :: rest
      else r :: updateFirst rest i patch

/-- Chain `.remove(setObject).write()` (line 202): lodash `_.remove`
removes every element the predicate matches, keeping the rest in
order. -/
def removeAll (games : List Record) (i : String) : List Record :=
  games.filter (fun r => !(matchesId r i))

/-- Clearly named second definition following the spec's words for the
store contract `deleteById` ("removes first record matching id"), to be
compared with `removeAll`, the translation of the source's lodash
call. -/
def deleteByIdSpec : List Record → String → List Record
  | [], _ => []
  | r :: rest, i => if matchesId r i then rest else r :: deleteByIdSpec rest i

/-- Modelled from the spec: the external `nanoid` library (not part of
this repository) returns a random token of the requested length over
nanoid's URL-safe alphabet; randomness is modelled by an explicit seed
consumed six bits at a time. -/
def urlAlphabet : List Char :=
  "useandom-26T198340PX75pxJACKVERYMINDBUSHWOLF_GQZbfghjklqvwyzrict".toList

/-- Character list of a modelled `nanoid` token of length `size`. -/
def nanoidChars (seed : Nat) : Nat → List Char
  | 0 => []
  | n + 1 => urlAlphabet.getD (seed % 64) 'u' :: nanoidChars (seed / 64) n

/-- Modelled from the spec: `nanoid(size)` — a token of exactly `size`
characters (see `urlAlphabet`, `nanoidChars`). -/
def nanoid (size : Nat) (seed : Nat) : String :=
  ⟨nanoidChars seed size⟩

/-- Token length requested on create (line 5 of the source). -/
def idLength : Nat := 8

/-- Line 121-124: the created record — literal with a generated `id`
field, then the spread of the request body, so a body `id` overrides the
generated one. -/
def createGame (gen : String) (body : Record) : Record :=
  spreadMerge [("id", gen)] body

/-- Response body as the router produces it. -/
inductive Body where
  /-- No resource payload (`res.sendStatus`). -/
  | empty : Body
  /-- A single record, JSON-serialized. -/
  | game : Record → Body
  /-- The whole collection, JSON-serialized. -/
  | arr : List Record → Body
  /-- A lodash query chain sent without `.value()` (line 174): the
  response wraps the result of the lookup, possibly of nothing. -/
  | query : Option Record → Body
  /-- Raw exception payload (`res.status(500).send(error)`). -/
  | err : StoreErr → Body
  deriving DecidableEq, Repr

/-- HTTP response: status code and body. -/
structure Response where
  status : Nat
  body : Body
  deriving DecidableEq, Repr

/-- Route `GET /` (lines 56-60): send the whole collection, 200. -/
def listGames (games : List Record) : Response :=
  ⟨200, Body.arr games⟩

/-- Route `GET /:id` (lines 86-94): 200 with the first matching record;
otherwise `res.sendStatus(404)` — a 404 with no resource payload (the
unconditional `res.send(game)` that follows fires after the response is
already sent and has no client-visible effect). -/
def getGameById (games : List Record) (i : String) : Response :=
  match findById games i with
  | some g => ⟨200, Body.game g⟩
  | none => ⟨404, Body.empty⟩

/-- Route `POST /` success path (lines 119-128): build the record, push
it onto the collection, write, send it with status 200.  Returns the new
collection and the response. -/
def postGames (games : List Record) (gen : String) (body : Record) :
    List Record × Response :=
  let game := createGame gen body
  (games ++ [game], ⟨200, Body.game game⟩)

/-- Route `PUT /:id` success path (lines 166-174): assign the body onto
the first matching record, write, then send the result of a fresh
`find` on the same id — as a query chain, not its `.value()`. -/
def putGameById (games : List Record) (i : String) (body : Record) :
    List Record × Response :=
  let games2 := updateFirst games i body
  (games2, ⟨200, Body.query (findById games2 i)⟩)

/-- Route `DELETE /:id` (lines 201-205): remove every matching record,
write, `res.sendStatus(200)`. -/
def deleteGameById (games : List Record) (i : String) :
    List Record × Response :=
  (removeAll games i, ⟨200, Body.empty⟩)

/-- The `try/catch` failure boundary of `post` and `put` (lines 120,
129-131 and 167, 175-177): a thrown store exception becomes a 500
response carrying the raw exception payload. -/
def catchBoundary (act : Except StoreErr Response) : Except StoreErr Response :=
  match act with
  | .ok r => .ok r
  | .error e => .ok ⟨500, Body.err e⟩

/-- Route `GET /` against a store access that may throw: no failure
boundary, an exception propagates (`Except.error`). -/
def listGamesH (db : Except StoreErr (List Record)) : Except StoreErr Response :=
  db.map listGames

/-- Route `GET /:id` against a fallible store: no failure boundary. -/
def getGameByIdH (db : Except StoreErr (List Record)) (i : String) :
    Except StoreErr Response :=
  db.map (fun games => getGameById games i)

/-- Route `DELETE /:id` against a fallible store: no failure boundary. -/
def deleteGameByIdH (db : Except StoreErr (List Record)) (i : String) :
    Except StoreErr Response :=
  db.map (fun games => (deleteGameById games i).2)

/-- Route `POST /` against a fallible store: wrapped in the boundary. -/
def postGamesH (db : Except StoreErr (List Record)) (gen : String)
    (body : Record) : Except StoreErr Response :=
  catchBoundary (db.map (fun games => (postGames games gen body).2))

/-- Route `PUT /:id` against a fallible store: wrapped in the boundary. -/
def putGameByIdH (db : Except StoreErr (List Record)) (i : String)
    (body : Record) : Except StoreErr Response :=
  catchBoundary (db.map (fun games => (putGameById games i body).2))

/-! Helper lemmas about field access and the shallow merge. -/

theorem lookupField_setField_self (r : Record) (k : String) (v : String) :
    lookupField (setField r k v) k = some v := by
  induction r with
  | nil => simp [setField, lookupField]
  | cons f rest ih =>
    obtain ⟨k', v'⟩ := f
    by_cases h : k' = k <;> simp [setField, lookupField, h, ih]

theorem lookupField_setField_ne (r : Record) (k₁ k₂ : String) (v : String)
    (h : k₁ ≠ k₂) : lookupField (setField r k₁ v) k₂ = lookupField r k₂ := by
  induction r with
  | nil => simp [setField, lookupField, h]
  | cons f rest ih =>
    obtain ⟨k', v'⟩ := f
    by_cases hk : k' = k₁
    · subst hk
      simp [setField, lookupField, h]
    · by_cases hk2 : k' = k₂ <;>
        simp [setField, lookupField, hk, hk2, ih, Ne.symm h]

theorem spreadMerge_cons (base : Record) (k : String) (v : String)
    (rest : Record) :
    spreadMerge base ((k, v) :: rest) = spreadMerge (setField base k v) rest :=
  rfl

theorem hasField_iff_mem (r : Record) (k : String) :
    hasField r k = true ↔ k ∈ r.map Prod.fst := by
  induction r with
  | nil => simp [hasField]
  | cons f rest ih =>
    obtain ⟨k', v'⟩ := f
    simp only [hasField, Bool.or_eq_true, decide_eq_true_eq, List.map_cons,
      List.mem_cons, ih]
    exact or_congr eq_comm Iff.rfl

theorem lookupField_spreadMerge_of_not_has (base patch : Record) (k : String)
    (h : hasField patch k = false) :
    lookupField (spreadMerge base patch) k = lookupField base k := by
  induction patch generalizing base with
  | nil => rfl
  | cons f rest ih =>
    obtain ⟨k₁, v₁⟩ := f
    simp only [hasField, Bool.or_eq_false_iff, decide_eq_false_iff_not] at h
    rw [spreadMerge_cons, ih _ h.2, lookupField_setField_ne _ _ _ _ h.1]

theorem lookupField_spreadMerge_of_has (base patch : Record) (k : String)
    (hn : keysNodup patch) (h : hasField patch k = true) :
    lookupField (spreadMerge base patch) k = lookupField patch k := by
  induction patch generalizing base with
  | nil => simp [hasField] at h
  | cons f rest ih =>
    obtain ⟨k₁, v₁⟩ := f
    have hn' : k₁ ∉ rest.map Prod.fst ∧ keysNodup rest := by
      simpa [keysNodup, List.nodup_cons] using hn
    by_cases hk : k₁ = k
    · subst hk
      have hrest : hasField rest k₁ = false := by
        have := hn'.1
        rw [← hasField_iff_mem] at this
        exact Bool.not_eq_true _ ▸ eq_false_of_ne_true this
      rw [spreadMerge_cons, lookupField_spreadMerge_of_not_has _ _ _ hrest,
        lookupField_setField_self]
      simp [lookupField]
    · have h' : hasField rest k = true := by simpa [hasField, hk] using h
      rw [spreadMerge_cons, ih _ hn'.2 h']
      simp [lookupField, hk]

theorem matchesId_spreadMerge (r patch : Record) (i : String)
    (h : hasField patch "id" = false) :
    matchesId (spreadMerge r patch) i = matchesId r i := by
  simp [matchesId, lookupField_spreadMerge_of_not_has _ _ _ h]

/-! Helper lemmas about the collection operations. -/

theorem findById_eq_none_of_forall (games : List Record) (i : String)
    (h : ∀ r ∈ games, matchesId r i = false) : findById games i = none := by
  induction games with
  | nil => rfl
  | cons r rest ih =>
    simp [findById, h r (List.mem_cons_self r rest)]
    exact ih fun x hx => h x (List.mem_cons_of_mem _ hx)

theorem forall_not_of_findById_eq_none (games : List Record) (i : String)
    (h : findById games i = none) : ∀ r ∈ games, matchesId r i = false := by
  induction games with
  | nil => simp
  | cons r rest ih =>
    by_cases hm : matchesId r i
    · simp [findById, hm] at h
    · intro x hx
      rcases List.mem_cons.mp hx with rfl | hx'
      · exact eq_false_of_ne_true hm
      · exact ih (by simpa [findById, hm] using h) x hx'

theorem findById_append_first (pre : List Record) (g : Record)
    (post : List Record) (i : String)
    (hpre : ∀ r ∈ pre, matchesId r i = false) (hg : matchesId g i = true) :
    findById (pre ++ g :: post) i = some g := by
  induction pre with
  | nil => simp [findById, hg]
  | cons r rest ih =>
    simp only [List.cons_append, findById, hpre r (List.mem_cons_self r rest),
      Bool.false_eq_true, if_false]
    exact ih fun x hx => hpre x (List.mem_cons_of_mem _ hx)

theorem updateFirst_of_forall_not (games : List Record) (i : String)
    (p : Record) (h : ∀ r ∈ games, matchesId r i = false) :
    updateFirst games i p = games := by
  induction games with
  | nil => rfl
  | cons r rest ih =>
    simp [updateFirst, h r (List.mem_cons_self r rest)]
    exact ih fun x hx => h x (List.mem_cons_of_mem _ hx)

theorem updateFirst_append_first (pre : List Record) (g : Record)
    (post : List Record) (i : String) (p : Record)
    (hpre : ∀ r ∈ pre, matchesId r i = false) (hg : matchesId g i = true) :
    updateFirst (pre ++ g :: post) i p = pre ++ spreadMerge g p :: post := by
  induction pre with
  | nil => simp [updateFirst, hg]
  | cons r rest ih =>
    simp only [List.cons_append, updateFirst,
      hpre r (List.mem_cons_self r rest), Bool.false_eq_true, if_false,
      List.cons.injEq, true_and]
    exact ih fun x hx => hpre x (List.mem_cons_of_mem _ hx)

theorem removeAll_of_forall_not (games : List Record) (i : String)
    (h : ∀ r ∈ games, matchesId r i = false) : removeAll games i = games :=
  List.filter_eq_self.mpr fun r hr => by simp [h r hr]

theorem matchesId_of_mem_removeAll (games : List Record) (i : String)
    (r : Record) (hr : r ∈ removeAll games i) : matchesId r i = false := by
  have := (List.mem_filter.mp hr).2
  simpa using this

theorem mem_removeAll_of_not_matches (games : List Record) (i : String)
    (r : Record) (hr : r ∈ games) (h : matchesId r i = false) :
    r ∈ removeAll games i :=
  List.mem_filter.mpr ⟨hr, by simp [h]⟩

/-! Helper lemmas about the modelled token generator. -/

theorem nanoidChars_length (seed : Nat) (n : Nat) :
    (nanoidChars seed n).length = n := by
  induction n generalizing seed with
  | zero => rfl
  | succ n ih => simp [nanoidChars, ih]

theorem nanoid_length (size : Nat) (seed : Nat) :
    (nanoid size seed).length = size := by
  simp [nanoid, String.length, nanoidChars_length]

theorem nanoid_ne_empty (seed : Nat) : nanoid idLength seed ≠ "" := by
  intro h
  have := congrArg String.length h
  rw [nanoid_length] at this
  simp [idLength, String.length] at this

theorem lookupField_eq_none_of_not_has (r : Record) (k : String)
    (h : hasField r k = false) : lookupField r k = none := by
  induction r with
  | nil => rfl
  | cons f rest ih =>
    obtain ⟨k', v'⟩ := f
    simp only [hasField, Bool.or_eq_false_iff, decide_eq_false_iff_not] at h
    simp [lookupField, h.1, ih h.2]

theorem lookupField_createGame_of_ne_id (gen : String) (body : Record)
    (k : String) (hn : keysNodup body) (hk : k ≠ "id") :
    lookupField (createGame gen body) k = lookupField body k := by
  by_cases h : hasField body k = true
  · exact lookupField_spreadMerge_of_has _ _ _ hn h
  · have h' := eq_false_of_ne_true h
    rw [createGame, lookupField_spreadMerge_of_not_has _ _ _ h',
      lookupField_eq_none_of_not_has _ _ h']
    simp [lookupField, Ne.symm hk]

/-! Claim theorems. -/

/-- Claim C1: for every create request whose JSON body includes an `id`
field, the record stored and returned carries the payload's `id`, not
the generated token — the body is spread after the generated id, so the
client value overrides it. -/
theorem claim1_post_body_id_overrides (games : List Record) (gen : String)
    (body : Record) (hn : keysNodup body) (hid : hasField body "id" = true) :
    (postGames games gen body).1 = games ++ [createGame gen body] ∧
    (postGames games gen body).2 = ⟨200, Body.game (createGame gen body)⟩ ∧
    lookupField (createGame gen body) "id" = lookupField body "id" :=
  ⟨rfl, rfl, lookupField_spreadMerge_of_has _ _ _ hn hid⟩

/-- Witness for C1 at a concrete store and body carrying an `id`. -/
theorem claim1_witness :
    keysNodup [("id", "client"), ("title", "Batman")] ∧
    hasField [("id", "client"), ("title", "Batman")] "id" = true ∧
    ((postGames [] "GENTOKEN" [("id", "client"), ("title", "Batman")]).1 =
        [] ++ [createGame "GENTOKEN" [("id", "client"), ("title", "Batman")]] ∧
      (postGames [] "GENTOKEN" [("id", "client"), ("title", "Batman")]).2 =
        ⟨200, Body.game (createGame "GENTOKEN"
          [("id", "client"), ("title", "Batman")])⟩ ∧
      lookupField (createGame "GENTOKEN"
          [("id", "client"), ("title", "Batman")]) "id" =
        lookupField [("id", "client"), ("title", "Batman")] "id") :=
  ⟨by decide, by decide,
    claim1_post_body_id_overrides [] "GENTOKEN" _ (by decide) (by decide)⟩

/-- Claim C2 counterexample: a patch payload that itself contains an
`id` field changes the stored record's id — the update does not preserve
the id for every patch payload, so the id is not immutable. -/
theorem claim2_counterexample :
    (putGameById [[("id", "a"), ("title", "t")]] "a" [("id", "b")]).1 =
      [[("id", "b"), ("title", "t")]] ∧
    lookupField [("id", "b"), ("title", "t")] "id" ≠ some "a" := by
  decide

/-- Claim C2 (amended): the update shallow-merges the payload onto the
first matching record, and the id is preserved for every patch payload
that does not itself contain an `id` field. -/
theorem claim2_put_preserves_id (pre : List Record) (g : Record)
    (post : List Record) (i : String) (patch : Record)
    (hpre : ∀ r ∈ pre, matchesId r i = false) (hg : matchesId g i = true)
    (hid : hasField patch "id" = false) :
    (putGameById (pre ++ g :: post) i patch).1 =
      pre ++ spreadMerge g patch :: post ∧
    lookupField (spreadMerge g patch) "id" = lookupField g "id" :=
  ⟨updateFirst_append_first pre g post i patch hpre hg,
    lookupField_spreadMerge_of_not_has _ _ _ hid⟩

/-- Witness for C2 (amended) at a concrete record and id-free patch. -/
theorem claim2_witness :
    matchesId [("id", "x"), ("title", "t")] "x" = true ∧
    hasField [("genre", "RPG")] "id" = false ∧
    ((putGameById [[("id", "x"), ("title", "t")]] "x" [("genre", "RPG")]).1 =
        [] ++ spreadMerge [("id", "x"), ("title", "t")] [("genre", "RPG")] :: [] ∧
      lookupField (spreadMerge [("id", "x"), ("title", "t")]
          [("genre", "RPG")]) "id" =
        lookupField [("id", "x"), ("title", "t")] "id") :=
  ⟨by decide, by decide,
    claim2_put_preserves_id [] _ [] "x" _ (by simp) (by decide) (by decide)⟩

/-- Claim C3: create with no `id` in the body responds 200 with a record
whose `id` is the generated token — non-empty, exactly 8 characters —
and whose `title` and `genre` equal the request-body values. -/
theorem claim3_post_generated_id (games : List Record) (seed : Nat)
    (body : Record) (hn : keysNodup body) (hid : hasField body "id" = false) :
    (postGames games (nanoid idLength seed) body).2.status = 200 ∧
    (postGames games (nanoid idLength seed) body).2.body =
      Body.game (createGame (nanoid idLength seed) body) ∧
    lookupField (createGame (nanoid idLength seed) body) "id" =
      some (nanoid idLength seed) ∧
    nanoid idLength seed ≠ "" ∧ (nanoid idLength seed).length = 8 ∧
    lookupField (createGame (nanoid idLength seed) body) "title" =
      lookupField body "title" ∧
    lookupField (createGame (nanoid idLength seed) body) "genre" =
      lookupField body "genre" := by
  refine ⟨rfl, rfl, ?_, nanoid_ne_empty seed, nanoid_length _ _,
    lookupField_createGame_of_ne_id _ _ _ hn (by decide),
    lookupField_createGame_of_ne_id _ _ _ hn (by decide)⟩
  rw [createGame, lookupField_spreadMerge_of_not_has _ _ _ hid]
  simp [lookupField]

/-- Witness for C3 at a concrete seed and id-free body. -/
theorem claim3_witness :
    keysNodup [("title", "Batman"), ("genre", "Adventure")] ∧
    hasField [("title", "Batman"), ("genre", "Adventure")] "id" = false ∧
    ((postGames [] (nanoid idLength 0)
        [("title", "Batman"), ("genre", "Adventure")]).2.status = 200 ∧
      (postGames [] (nanoid idLength 0)
          [("title", "Batman"), ("genre", "Adventure")]).2.body =
        Body.game (createGame (nanoid idLength 0)
          [("title", "Batman"), ("genre", "Adventure")]) ∧
      lookupField (createGame (nanoid idLength 0)
          [("title", "Batman"), ("genre", "Adventure")]) "id" =
        some (nanoid idLength 0) ∧
      nanoid idLength 0 ≠ "" ∧ (nanoid idLength 0).length = 8 ∧
      lookupField (createGame (nanoid idLength 0)
          [("title", "Batman"), ("genre", "Adventure")]) "title" =
        lookupField [("title", "Batman"), ("genre", "Adventure")] "title" ∧
      lookupField (createGame (nanoid idLength 0)
          [("title", "Batman"), ("genre", "Adventure")]) "genre" =
        lookupField [("title", "Batman"), ("genre", "Adventure")] "genre") :=
  ⟨by decide, by decide,
    claim3_post_generated_id [] 0 _ (by decide) (by decide)⟩

/-- Claim C4: GET /games/:id responds 200 with the JSON of the first
record whose id matches the path id when one exists, and 404 with no
resource payload when none matches. -/
theorem claim4_get_by_id (games pre post : List Record) (g : Record)
    (i : String) :
    ((∀ r ∈ pre, matchesId r i = false) → matchesId g i = true →
      getGameById (pre ++ g :: post) i = ⟨200, Body.game g⟩) ∧
    ((∀ r ∈ games, matchesId r i = false) →
      getGameById games i = ⟨404, Body.empty⟩) := by
  constructor
  · intro hpre hg
    unfold getGameById
    rw [findById_append_first pre g post i hpre hg]
  · intro h
    unfold getGameById
    rw [findById_eq_none_of_forall games i h]

/-- Witness for C4: a hit on a one-record store and a miss on it. -/
theorem claim4_witness :
    getGameById [[("id", "a"), ("title", "t")]] "a" =
      ⟨200, Body.game [("id", "a"), ("title", "t")]⟩ ∧
    getGameById [[("id", "a"), ("title", "t")]] "z" = ⟨404, Body.empty⟩ :=
  ⟨(claim4_get_by_id [] [] [] [("id", "a"), ("title", "t")] "a").1
      (by simp) (by decide),
    (claim4_get_by_id [[("id", "a"), ("title", "t")]] [] [] [] "z").2
      (by decide)⟩

/-- Claim C5 counterexample: with two stored records carrying the same
id — a state the API itself can reach, since a create body may supply
the id — DELETE removes both records, while the claim's remove-first
delete would leave the second one behind. -/
theorem claim5_counterexample :
    (deleteGameById
        [[("id", "a"), ("title", "1")], [("id", "a"), ("title", "2")]] "a").1 =
      [] ∧
    deleteByIdSpec
        [[("id", "a"), ("title", "1")], [("id", "a"), ("title", "2")]] "a" =
      [[("id", "a"), ("title", "2")]] ∧
    ([] : List Record) ≠ [[("id", "a"), ("title", "2")]] := by
  decide

/-- Claim C5 (amended): DELETE removes every record matching the path id
(in particular the first), responds 200 with an empty body, keeps every
non-matching record, and leaves the store unchanged when nothing
matches. -/
theorem claim5_delete_removes_matching (games : List Record) (i : String) :
    (deleteGameById games i).2 = ⟨200, Body.empty⟩ ∧
    (∀ r ∈ (deleteGameById games i).1, matchesId r i = false) ∧
    (∀ r ∈ games, matchesId r i = false → r ∈ (deleteGameById games i).1) ∧
    ((∀ r ∈ games, matchesId r i = false) → (deleteGameById games i).1 = games) :=
  ⟨rfl, fun r hr => matchesId_of_mem_removeAll games i r hr,
    fun r hr h => mem_removeAll_of_not_matches games i r hr h,
    fun h => removeAll_of_forall_not games i h⟩

/-- Witness for C5 (amended) on a two-record store. -/
theorem claim5_witness :
    (deleteGameById [[("id", "a")], [("id", "b")]] "a").2 =
      ⟨200, Body.empty⟩ ∧
    [("id", "b")] ∈ (deleteGameById [[("id", "a")], [("id", "b")]] "a").1 :=
  ⟨(claim5_delete_removes_matching [[("id", "a")], [("id", "b")]] "a").1,
    (claim5_delete_removes_matching [[("id", "a")], [("id", "b")]] "a").2.2.1
      [("id", "b")] (by decide) (by decide)⟩

/-- Claim C6: PUT on an existing record overwrites exactly the
top-level fields named in the payload and leaves every field not present
in the payload unchanged on the stored record. -/
theorem claim6_put_frame (pre : List Record) (g : Record)
    (post : List Record) (i : String) (patch : Record)
    (hpre : ∀ r ∈ pre, matchesId r i = false) (hg : matchesId g i = true)
    (hn : keysNodup patch) :
    (putGameById (pre ++ g :: post) i patch).1 =
      pre ++ spreadMerge g patch :: post ∧
    (∀ k, hasField patch k = false →
      lookupField (spreadMerge g patch) k = lookupField g k) ∧
    (∀ k, hasField patch k = true →
      lookupField (spreadMerge g patch) k = lookupField patch k) :=
  ⟨updateFirst_append_first pre g post i patch hpre hg,
    fun k hk => lookupField_spreadMerge_of_not_has g patch k hk,
    fun k hk => lookupField_spreadMerge_of_has g patch k hn hk⟩

/-- Witness for C6: a genre-only patch leaves the title unchanged and
sets the genre. -/
theorem claim6_witness :
    (putGameById [[("id", "x"), ("title", "t"), ("genre", "g")]] "x"
        [("genre", "Action")]).1 =
      [] ++ spreadMerge [("id", "x"), ("title", "t"), ("genre", "g")]
        [("genre", "Action")] :: [] ∧
    lookupField (spreadMerge [("id", "x"), ("title", "t"), ("genre", "g")]
        [("genre", "Action")]) "title" =
      lookupField [("id", "x"), ("title", "t"), ("genre", "g")] "title" ∧
    lookupField (spreadMerge [("id", "x"), ("title", "t"), ("genre", "g")]
        [("genre", "Action")]) "genre" =
      lookupField [("genre", "Action")] "genre" :=
  ⟨(claim6_put_frame [] _ [] "x" _ (by simp) (by decide) (by decide)).1,
    (claim6_put_frame [] _ [] "x" _ (by simp) (by decide) (by decide)).2.1
      "title" (by decide),
    (claim6_put_frame [] _ [] "x" _ (by simp) (by decide) (by decide)).2.2
      "genre" (by decide)⟩

/-- Claim C7: PUT on an id with no matching record responds 200, creates
no record and leaves the stored collection unchanged — a no-op, neither
an upsert nor a 404. -/
theorem claim7_put_missing_id_noop (games : List Record) (i : String)
    (body : Record) (h : findById games i = none) :
    (putGameById games i body).1 = games ∧
    (putGameById games i body).2.status = 200 :=
  ⟨updateFirst_of_forall_not games i body
      (forall_not_of_findById_eq_none games i h), rfl⟩

/-- Witness for C7 on a store that lacks the requested id. -/
theorem claim7_witness :
    findById [[("id", "b")]] "a" = none ∧
    ((putGameById [[("id", "b")]] "a" [("title", "T")]).1 = [[("id", "b")]] ∧
      (putGameById [[("id", "b")]] "a" [("title", "T")]).2.status = 200) :=
  ⟨by decide, claim7_put_missing_id_noop [[("id", "b")]] "a" _ (by decide)⟩

/-- Claim C8: the PUT response is the result of a subsequent lookup for
the same path id on the post-update collection, sent as the query itself
— which need not be the resolved merged record: an id-changing patch
makes the subsequent lookup find nothing. -/
theorem claim8_put_response_is_lookup :
    (∀ games i body, (putGameById games i body).2 =
      ⟨200, Body.query (findById (putGameById games i body).1 i)⟩) ∧
    (putGameById [[("id", "a")]] "a" [("id", "b")]).2 ≠
      ⟨200, Body.query (some (spreadMerge [[("id", "a")]].head! [("id", "b")]))⟩ := by
  constructor
  · intro games i body
    rfl
  · decide

/-- Witness for C8 at a concrete store, id and patch. -/
theorem claim8_witness :
    (putGameById [[("id", "a"), ("title", "t")]] "a" [("genre", "g")]).2 =
      ⟨200, Body.query (findById
        (putGameById [[("id", "a"), ("title", "t")]] "a" [("genre", "g")]).1
        "a")⟩ :=
  claim8_put_response_is_lookup.1 [[("id", "a"), ("title", "t")]] "a"
    [("genre", "g")]

/-- Claim C9: only create and update wrap store access in a failure
boundary — a store exception there yields a 500 carrying the raw
exception payload, while it propagates uncaught out of list, get-by-id
and delete. -/
theorem claim9_failure_boundaries (e : StoreErr) (gen : String)
    (body : Record) (i j k : String) :
    postGamesH (Except.error e) gen body = Except.ok ⟨500, Body.err e⟩ ∧
    putGameByIdH (Except.error e) i body = Except.ok ⟨500, Body.err e⟩ ∧
    listGamesH (Except.error e) = Except.error e ∧
    getGameByIdH (Except.error e) j = Except.error e ∧
    deleteGameByIdH (Except.error e) k = Except.error e :=
  ⟨rfl, rfl, rfl, rfl, rfl⟩

/-- Witness for C9 at a concrete exception payload. -/
theorem claim9_witness :
    postGamesH (Except.error "boom") "GEN" [] =
      Except.ok ⟨500, Body.err "boom"⟩ ∧
    putGameByIdH (Except.error "boom") "a" [] =
      Except.ok ⟨500, Body.err "boom"⟩ ∧
    listGamesH (Except.error "boom") = Except.error "boom" ∧
    getGameByIdH (Except.error "boom") "a" = Except.error "boom" ∧
    deleteGameByIdH (Except.error "boom") "a" = Except.error "boom" :=
  claim9_failure_boundaries "boom" "GEN" [] "a" "a" "a"

/-- Claim C10: a create appends the new record at the end, leaving every
pre-existing record and its position unchanged; a delete keeps every
record whose id does not match, in the original relative order. -/
theorem claim10_mutation_frame (games : List Record) (gen : String)
    (body : Record) (i : String) :
    (postGames games gen body).1 = games ++ [createGame gen body] ∧
    List.Sublist (deleteGameById games i).1 games ∧
    (∀ r ∈ games, matchesId r i = false → r ∈ (deleteGameById games i).1) :=
  ⟨rfl, List.filter_sublist games,
    fun r hr h => mem_removeAll_of_not_matches games i r hr h⟩

/-- Witness for C10 on a two-record store. -/
theorem claim10_witness :
    (postGames [[("id", "a")], [("id", "b")]] "GEN" [("title", "T")]).1 =
      [[("id", "a")], [("id", "b")]] ++
        [createGame "GEN" [("title", "T")]] ∧
    [("id", "b")] ∈
      (deleteGameById [[("id", "a")], [("id", "b")]] "a").1 :=
  ⟨(claim10_mutation_frame [[("id", "a")], [("id", "b")]] "GEN"
      [("title", "T")] "a").1,
    (claim10_mutation_frame [[("id", "a")], [("id", "b")]] "GEN"
      [("title", "T")] "a").2.2 [("id", "b")] (by decide) (by decide)⟩

end Games
